import Mathlib

/-!
# Go_bank: account factory, record store, handlers and creation dispatcher

A shallow embedding of `src/api.go` and `src/storage.go`.

* Go `int` / `int64` values are `Int` (no arithmetic is performed on them in
  the embedded code, so no wrap-around arises).
* A Go pair `(value, error)` is a Lean pair whose second component is an
  `Option GoError` (`none` is the `nil` error).
* A Go slice is `Option (List α)`: `none` is the `nil` slice, `some []` the
  empty non-nil slice.
* What the process cannot decide on its own - the value drawn by
  `rand.Intn`, the clock, the outcome of the request-body parser, and whether a
  call into `database/sql` fails - is an explicit argument.
-/

namespace GoBank

/-! ## Values -/

/-- Location attached to a `time.Time`. -/
inductive Location
  | Local
  | UTC
  deriving DecidableEq, Repr

/-- A `time.Time`: an instant together with the location it is presented in. -/
structure Time where
  instant : Int
  loc : Location
  deriving DecidableEq, Repr

/-- The zero `time.Time`. -/
def Time.zero : Time := ⟨0, Location.UTC⟩

/-- `t.UTC()`: same instant, location set to UTC. -/
def Time.UTC (t : Time) : Time := { t with loc := Location.UTC }

/-- `strconv.Itoa` (also what the verb `%d` prints for an `int`): the decimal
representation, with a leading minus sign for a negative number. -/
def Itoa (i : Int) : String :=
  if i < 0 then "-" ++ Nat.repr i.natAbs else Nat.repr i.natAbs

/-- `type Account struct` of `api.go`. -/
structure Account where
  ID : Int
  FirstName : String
  LastName : String
  Number : String
  Balance : Int
  CreatedAt : Time
  deriving DecidableEq, Repr

/-- `NewAccount` of `api.go`. `n` is the value returned by `rand.Intn(100000)`
and `now` the value returned by `time.Now()`. The fields `ID` and `Balance`
are not mentioned by the composite literal, so they hold their zero values. -/
def NewAccount (firstName lastName : String) (n : Nat) (now : Time) : Account :=
  { ID := 0
    FirstName := firstName
    LastName := lastName
    Number := "+91" ++ Itoa (n : Int)
    Balance := 0
    CreatedAt := now.UTC }

/-! ## Errors -/

/-- An error value handed back by `database/sql` or the driver for a reason
outside the program: connectivity, timeout, constraint or conversion failure. -/
structure DriverError where
  msg : String
  deriving DecidableEq, Repr

/-- A Go `error` value as it occurs in this program. Go compares error values
by identity, so the three origins are three constructors. -/
inductive GoError
  /-- a value built by `fmt.Errorf` in `storage.go` -/
  | errorString (msg : String)
  /-- the sentinel `sql.ErrNoRows` -/
  | ErrNoRows
  /-- an error of the driver, passed on as it is -/
  | driver (e : DriverError)
  deriving DecidableEq, Repr

/-- The method `Error()` of an error value. -/
def GoError.Error : GoError → String
  | GoError.errorString m => m
  | GoError.ErrNoRows => "sql: no rows in result set"
  | GoError.driver e => e.msg

/-- `fmt.Errorf("account with ID %d not found", id)` of `storage.go`. -/
def errAccountNotFound (id : Int) : GoError :=
  GoError.errorString ("account with ID " ++ Itoa id ++ " not found")

/-- `fmt.Errorf("no account found with first name: %s", firstName)`. -/
def errFirstNameNotFound (firstName : String) : GoError :=
  GoError.errorString ("no account found with first name: " ++ firstName)

/-! ## The table and the driver -/

/-- The table `account`: its rows in the order a `SELECT` yields them (a row
is written as the `Account` that `Scan` reads from it), and the next value of
the `SERIAL` sequence behind the column `id`. -/
structure DB where
  rows : List Account
  nextID : Int
  deriving DecidableEq, Repr

/-- What the environment decides during one call into the store. -/
structure Driver where
  /-- `ExecContext` / `QueryContext` / `QueryRowContext` fails -/
  execErr : Option DriverError
  /-- `result.RowsAffected()` fails -/
  rowsAffectedErr : Option DriverError
  /-- `Scan` of the given row fails -/
  scanErr : Account → Option DriverError
  /-- the error reported once the iteration over the rows has ended -/
  rowsErr : Option DriverError
  /-- the values the column types of the table keep of an inserted account -/
  columns : Account → Account

/-- A driver under which no call fails. -/
def Driver.healthy : Driver :=
  { execErr := none
    rowsAffectedErr := none
    scanErr := fun _ => none
    rowsErr := none
    columns := fun a => a }

/-- A failure of the statement itself with the given error, nothing else. -/
def Driver.failing (e : DriverError) : Driver :=
  { Driver.healthy with execErr := some e }

/-! ## `PostgresStore` (`storage.go`)

The read/write lock makes every method atomic with respect to the others, so a
method is a function of the table. -/

/-- `PostgresStore.CreateAccount`: `INSERT INTO account (...) VALUES (...)`;
the id comes from the sequence. A statement that fails is taken to leave the
table as it was. -/
def PostgresStore.CreateAccount (env : Driver) (acc : Account) (db : DB) :
    Option GoError × DB :=
  match env.execErr with
  | some e => (some (GoError.driver e), db)
  | none =>
    (none, { rows := db.rows ++ [{ env.columns acc with ID := db.nextID }]
             nextID := db.nextID + 1 })

/-- `PostgresStore.DeleteAccount`: `DELETE FROM account WHERE id = $1`, then
the check of `RowsAffected`. A statement that fails is taken to leave the table
as it was. -/
def PostgresStore.DeleteAccount (env : Driver) (id : Int) (db : DB) :
    Option GoError × DB :=
  match env.execErr with
  | some e => (some (GoError.driver e), db)
  | none =>
    let rowsAffected := (db.rows.filter (fun r => r.ID == id)).length
    let db' : DB := { db with rows := db.rows.filter (fun r => !(r.ID == id)) }
    match env.rowsAffectedErr with
    | some e => (some (GoError.driver e), db')
    | none =>
      if rowsAffected = 0 then (some (errAccountNotFound id), db')
      else (none, db')

/-- `QueryRowContext(...).Scan(...)` over the rows selected by `p`: the error
of the query if it failed; with no row, the iteration error if there is one
and `sql.ErrNoRows` otherwise; else the first row, unless its `Scan` fails. -/
def queryRowScan (env : Driver) (p : Account → Bool) (db : DB) :
    Except GoError Account :=
  match env.execErr with
  | some e => Except.error (GoError.driver e)
  | none =>
    match db.rows.find? p with
    | none =>
      match env.rowsErr with
      | some e => Except.error (GoError.driver e)
      | none => Except.error GoError.ErrNoRows
    | some r =>
      match env.scanErr r with
      | some e => Except.error (GoError.driver e)
      | none => Except.ok r

/-- `PostgresStore.GetAccount`: `SELECT ... FROM account WHERE id = $1`. -/
def PostgresStore.GetAccount (env : Driver) (id : Int) (db : DB) :
    Option Account × Option GoError :=
  match queryRowScan env (fun r => r.ID == id) db with
  | Except.error err =>
    if err = GoError.ErrNoRows then (none, some (errAccountNotFound id))
    else (none, some err)
  | Except.ok account => (some account, none)

/-- `PostgresStore.GetAccountByFirstName`:
`SELECT ... FROM account WHERE first_name = $1`. -/
def PostgresStore.GetAccountByFirstName (env : Driver) (firstName : String) (db : DB) :
    Option Account × Option GoError :=
  match queryRowScan env (fun r => r.FirstName == firstName) db with
  | Except.error err =>
    if err = GoError.ErrNoRows then (none, some (errFirstNameNotFound firstName))
    else (none, some err)
  | Except.ok account => (some account, none)

/-- The loop `for rows.Next() { ... }` of `GetAccounts`: every row is scanned
and appended to `accounts`; a failing `Scan` ends the method with its error. -/
def scanRows (env : Driver) : List Account → List Account → Except GoError (List Account)
  | [], accounts => Except.ok accounts
  | r :: rest, accounts =>
    match env.scanErr r with
    | some e => Except.error (GoError.driver e)
    | none => scanRows env rest (accounts ++ [r])

/-- `PostgresStore.GetAccounts`: `SELECT ... FROM account`. The slice starts as
the empty, non-nil `[]*Account{}`. -/
def PostgresStore.GetAccounts (env : Driver) (db : DB) :
    Option (List Account) × Option GoError :=
  match env.execErr with
  | some e => (none, some (GoError.driver e))
  | none =>
    match scanRows env db.rows [] with
    | Except.error err => (none, some err)
    | Except.ok accounts =>
      match env.rowsErr with
      | some e => (none, some (GoError.driver e))
      | none => (some accounts, none)

/-! ## The interface `Storage` -/

/-- `type Storage interface` of `storage.go`, over the state `σ` its
implementation keeps. -/
structure Storage (σ : Type) where
  CreateAccount : Account → σ → Option GoError × σ
  DeleteAccount : Int → σ → Option GoError × σ
  GetAccounts : σ → (Option (List Account) × Option GoError) × σ
  GetAccount : Int → σ → (Option Account × Option GoError) × σ
  GetAccountByFirstName : String → σ → (Option Account × Option GoError) × σ

/-- `*PostgresStore` as a `Storage`; the three reading methods leave the table
as it is. -/
def PostgresStore.asStorage (env : Driver) : Storage DB :=
  { CreateAccount := PostgresStore.CreateAccount env
    DeleteAccount := PostgresStore.DeleteAccount env
    GetAccounts := fun db => (PostgresStore.GetAccounts env db, db)
    GetAccount := fun id db => (PostgresStore.GetAccount env id db, db)
    GetAccountByFirstName := fun n db => (PostgresStore.GetAccountByFirstName env n db, db) }

/-- A call of a method of `Storage`, with its arguments. -/
inductive StoreCall
  | CreateAccount (acc : Account)
  | DeleteAccount (id : Int)
  | GetAccounts
  | GetAccount (id : Int)
  | GetAccountByFirstName (firstName : String)
  deriving DecidableEq, Repr

/-- Any `Storage` with a record of the calls made to it, oldest first; the
answers are those of the store underneath. -/
def recording {σ : Type} (S : Storage σ) : Storage (σ × List StoreCall) :=
  { CreateAccount := fun acc st =>
      ((S.CreateAccount acc st.1).1, (S.CreateAccount acc st.1).2,
        st.2 ++ [StoreCall.CreateAccount acc])
    DeleteAccount := fun id st =>
      ((S.DeleteAccount id st.1).1, (S.DeleteAccount id st.1).2,
        st.2 ++ [StoreCall.DeleteAccount id])
    GetAccounts := fun st =>
      ((S.GetAccounts st.1).1, (S.GetAccounts st.1).2, st.2 ++ [StoreCall.GetAccounts])
    GetAccount := fun id st =>
      ((S.GetAccount id st.1).1, (S.GetAccount id st.1).2,
        st.2 ++ [StoreCall.GetAccount id])
    GetAccountByFirstName := fun n st =>
      ((S.GetAccountByFirstName n st.1).1, (S.GetAccountByFirstName n st.1).2,
        st.2 ++ [StoreCall.GetAccountByFirstName n]) }

/-! ## Responses (`api.go`) -/

def StatusOK : Nat := 200
def StatusAccepted : Nat := 202
def StatusBadRequest : Nat := 400
def StatusNotFound : Nat := 404
def StatusInternalServerError : Nat := 500

/-- The values this program puts in the field `Data any`. -/
inductive Data
  | null
  | account (a : Option Account)
  | accounts (s : Option (List Account))
  deriving DecidableEq, Repr

/-- `type JSONResponse struct`. -/
structure JSONResponse where
  Status : Nat
  Message : String
  Data : Data
  deriving DecidableEq, Repr

/-- `NewJSONResponse`. -/
def NewJSONResponse (status : Nat) (message : String) (data : Data) : JSONResponse :=
  { Status := status, Message := message, Data := data }

/-- What the client receives: the status code set on the context and the body. -/
structure HttpResponse where
  statusCode : Nat
  body : JSONResponse
  deriving DecidableEq, Repr

/-- `sendJSONResponse`: `c.Status(statusCode).JSON(response)`. -/
def sendJSONResponse (response : JSONResponse) (statusCode : Nat) : HttpResponse :=
  { statusCode := statusCode, body := response }

/-- `type AccountRequest struct`. -/
structure AccountRequest where
  ID : Int
  deriving DecidableEq, Repr

/-- `type CreateAccountRequest struct`. -/
structure CreateAccountRequest where
  FirstName : String
  LastName : String
  deriving DecidableEq, Repr

/-! ## Synchronous handlers

`body` is the outcome of `c.BodyParser(&req)`: `none` when it returns an
error, `some req` with the request it filled in otherwise. -/

/-- `APIServer.handleGetAccount`. -/
def handleGetAccount {σ : Type} (Store : Storage σ) (body : Option AccountRequest) (st : σ) :
    HttpResponse × σ :=
  match body with
  | none =>
    (sendJSONResponse (NewJSONResponse StatusBadRequest "Invalid request payload" Data.null)
      StatusBadRequest, st)
  | some req =>
    match Store.GetAccount req.ID st with
    | ((_, some _), st') =>
      (sendJSONResponse (NewJSONResponse StatusNotFound "Account not found" Data.null)
        StatusNotFound, st')
    | ((account, none), st') =>
      (sendJSONResponse
        (NewJSONResponse StatusOK "Account retrieved successfully" (Data.account account))
        StatusOK, st')

/-- `APIServer.handleDeleteAccount`. -/
def handleDeleteAccount {σ : Type} (Store : Storage σ) (body : Option AccountRequest) (st : σ) :
    HttpResponse × σ :=
  match body with
  | none =>
    (sendJSONResponse (NewJSONResponse StatusBadRequest "Invalid request payload" Data.null)
      StatusBadRequest, st)
  | some delReq =>
    match Store.DeleteAccount delReq.ID st with
    | (some _, st') =>
      (sendJSONResponse (NewJSONResponse StatusNotFound "Account not found" Data.null)
        StatusNotFound, st')
    | (none, st') =>
      (sendJSONResponse (NewJSONResponse StatusOK "Account deleted successfully" Data.null)
        StatusOK, st')

/-- `APIServer.handleGetAccounts`. -/
def handleGetAccounts {σ : Type} (Store : Storage σ) (st : σ) : HttpResponse × σ :=
  match Store.GetAccounts st with
  | ((_, some _), st') =>
    (sendJSONResponse
      (NewJSONResponse StatusInternalServerError "Failed to retrieve accounts" Data.null)
      StatusInternalServerError, st')
  | ((accounts, none), st') =>
    (sendJSONResponse
      (NewJSONResponse StatusOK "Accounts retrieved successfully" (Data.accounts accounts))
      StatusOK, st')

/-! ## Channels

The part of Go's channel semantics the program relies on: a channel made with
capacity `cap` holds at most `cap` values that no receiver has taken yet. -/

/-- A channel: its capacity and the values queued in its buffer, oldest first. -/
structure Chan (α : Type) where
  cap : Nat
  buf : List α
  deriving DecidableEq, Repr

/-- `make(chan T, cap)`; `make(chan T)` is `makeChan 0`. -/
def makeChan {α : Type} (cap : Nat) : Chan α := { cap := cap, buf := [] }

/-- What a send statement `ch <- v` does at the moment it is reached. -/
inductive SendOutcome (α : Type)
  /-- a receiver is parked on the channel: it takes the value at once -/
  | handedOver
  /-- no receiver is parked and the buffer has room: the value is queued -/
  | queued (c : Chan α)
  /-- neither: the sender waits -/
  | blocks
  deriving DecidableEq, Repr

/-- The send statement `ch <- v`. -/
def Chan.send {α : Type} (c : Chan α) (receiverParked : Bool) (v : α) : SendOutcome α :=
  if receiverParked then SendOutcome.handedOver
  else if c.buf.length < c.cap then SendOutcome.queued { c with buf := c.buf ++ [v] }
  else SendOutcome.blocks

/-! ## The server and the creation pipeline (`api.go`) -/

/-- `type APIServer struct`; `wg` is the counter of the `sync.WaitGroup`. -/
structure APIServer (σ : Type) where
  listenAddr : String
  Store : Storage σ
  JWTSecret : ByteArray
  accountChan : Chan CreateAccountRequest
  wg : Nat

/-- `NewApiServer`: the channel is made by `make(chan CreateAccountRequest)`,
without a capacity argument. -/
def NewApiServer {σ : Type} (listenAddr : String) (store : Storage σ) (jwtSecret : String) :
    APIServer σ :=
  { listenAddr := listenAddr
    Store := store
    JWTSecret := jwtSecret.toUTF8
    accountChan := makeChan 0
    wg := 0 }

/-- Where the goroutine started by `StartQueue` stands in
`for accountReq := range s.accountChan { ... }`. -/
inductive Loop
  /-- `StartQueue` has not been called -/
  | notStarted
  /-- parked in the receive of `range`, the channel being empty -/
  | receiving
  /-- holds a received request, the loop body not yet run for it -/
  | received (req : CreateAccountRequest)
  deriving DecidableEq, Repr

/-- The process: the server, the loop goroutine, the goroutines launched by
`go func(req CreateAccountRequest)` that have not run yet (each with its
argument), the state of the store and the lines written by `log.Printf`. -/
structure Sys (σ : Type) where
  server : APIServer σ
  loop : Loop
  tasks : List CreateAccountRequest
  store : σ
  log : List String

/-- The process right after `NewApiServer`. -/
def Sys.init {σ : Type} (server : APIServer σ) (st : σ) : Sys σ :=
  { server := server, loop := Loop.notStarted, tasks := [], store := st, log := [] }

/-- The receive of `range s.accountChan`: the oldest queued value if there is
one, else the goroutine parks. -/
def rangeReceive {σ : Type} (sys : Sys σ) : Sys σ :=
  match sys.server.accountChan.buf with
  | [] => { sys with loop := Loop.receiving }
  | v :: rest =>
    { sys with
      loop := Loop.received v
      server := { sys.server with accountChan := { sys.server.accountChan with buf := rest } } }

/-- `APIServer.StartQueue`: starts the loop goroutine, which goes to its first
receive. `Run` calls it once; a second call is not modelled. -/
def StartQueue {σ : Type} (sys : Sys σ) : Sys σ :=
  match sys.loop with
  | Loop.notStarted => rangeReceive sys
  | _ => sys

/-- The response `202` of `handleCreateAccount`. -/
def acceptedResponse : HttpResponse :=
  sendJSONResponse (NewJSONResponse StatusAccepted "Account creation in progress" Data.null)
    StatusAccepted

/-- `APIServer.handleCreateAccount`. `none`: the handler is waiting in the send
statement `s.accountChan <- createAccountReq`. -/
def handleCreateAccount {σ : Type} (body : Option CreateAccountRequest) (sys : Sys σ) :
    Option (HttpResponse × Sys σ) :=
  match body with
  | none =>
    some (sendJSONResponse (NewJSONResponse StatusBadRequest "Invalid request payload" Data.null)
      StatusBadRequest, sys)
  | some createAccountReq =>
    match sys.server.accountChan.send (sys.loop == Loop.receiving) createAccountReq with
    | SendOutcome.handedOver =>
      some (acceptedResponse, { sys with loop := Loop.received createAccountReq })
    | SendOutcome.queued c =>
      some (acceptedResponse, { sys with server := { sys.server with accountChan := c } })
    | SendOutcome.blocks => none

/-- The loop body for the request the loop holds: `s.wg.Add(1)`, the `go`
statement, then the next receive. `none` when the loop holds no request. -/
def dispatch {σ : Type} (sys : Sys σ) : Option (Sys σ) :=
  match sys.loop with
  | Loop.received req =>
    some (rangeReceive
      { sys with
        server := { sys.server with wg := sys.server.wg + 1 }
        tasks := sys.tasks ++ [req] })
  | _ => none

/-- The line written by `log.Printf("Error creating account: %v", err)`. -/
def createErrorLine (err : GoError) : String := "Error creating account: " ++ err.Error

/-- The `i`-th launched goroutine runs: `NewAccount`, `s.Store.CreateAccount`,
the log line when that fails, and the deferred `s.wg.Done()`. `n` and `now` are
what `rand.Intn` and `time.Now` return to it. `none` when there is no such
goroutine. -/
def runTask {σ : Type} (i : Nat) (n : Nat) (now : Time) (sys : Sys σ) : Option (Sys σ) :=
  match sys.tasks[i]? with
  | none => none
  | some req =>
    let account := NewAccount req.FirstName req.LastName n now
    match sys.server.Store.CreateAccount account sys.store with
    | (some err, st') =>
      some { sys with
        server := { sys.server with wg := sys.server.wg - 1 }
        tasks := sys.tasks.eraseIdx i
        store := st'
        log := sys.log ++ [createErrorLine err] }
    | (none, st') =>
      some { sys with
        server := { sys.server with wg := sys.server.wg - 1 }
        tasks := sys.tasks.eraseIdx i
        store := st' }

/-- One scheduling decision. -/
inductive Event
  /-- a client request reaches `handleCreateAccount` and the handler returns -/
  | submit (body : Option CreateAccountRequest)
  /-- the loop goroutine runs its body once -/
  | dispatch
  /-- the `i`-th launched goroutine runs to its end -/
  | task (i : Nat) (n : Nat) (now : Time)
  deriving DecidableEq, Repr

/-- The process after one event; `none` when the event cannot happen in this
state. -/
def step {σ : Type} (e : Event) (sys : Sys σ) : Option (Sys σ) :=
  match e with
  | Event.submit body => (handleCreateAccount body sys).map Prod.snd
  | Event.dispatch => dispatch sys
  | Event.task i n now => runTask i n now sys

/-- The process after a sequence of events. -/
def run {σ : Type} : List Event → Sys σ → Option (Sys σ)
  | [], sys => some sys
  | e :: es, sys =>
    match step e sys with
    | none => none
    | some sys' => run es sys'

/-- The server as `Run` leaves it before listening: built by `NewApiServer`
over a recording store, `StartQueue` called. -/
def booted {σ : Type} (S : Storage σ) (st : σ) : Sys (σ × List StoreCall) :=
  StartQueue (Sys.init (NewApiServer ":8080" (recording S) "jwtSecret") (st, []))

/-- The request the loop goroutine holds, if any. -/
def held : Loop → List CreateAccountRequest
  | Loop.received req => [req]
  | _ => []

/-- The accepted requests for which `CreateAccount` has not been called yet:
those queued in the channel, the one the loop holds, and the arguments of the
goroutines that have not run. -/
def inFlight {σ : Type} (sys : Sys σ) : List CreateAccountRequest :=
  sys.server.accountChan.buf ++ held sys.loop ++ sys.tasks

/-! ## Sample values -/

/-- A table with two rows, ids 1 and 2. -/
def sampleDB : DB :=
  { rows := [{ NewAccount "Ada" "Lovelace" 42 Time.zero with ID := 1 },
             { NewAccount "Alan" "Turing" 7 Time.zero with ID := 2 }]
    nextID := 3 }

/-- The error of a call whose five-second deadline has passed. -/
def deadlineExceeded : DriverError := { msg := "context deadline exceeded" }

/-- Two creation requests. -/
def ada : CreateAccountRequest := { FirstName := "Ada", LastName := "Lovelace" }

def alan : CreateAccountRequest := { FirstName := "Alan", LastName := "Turing" }

/-- The process of `main`: `NewApiServer(":8080", store, "jwtSecret")` over the
Postgres store, `StartQueue` called, the table being `sampleDB`. -/
def sampleSys : Sys DB :=
  StartQueue (Sys.init (NewApiServer ":8080" (PostgresStore.asStorage Driver.healthy) "jwtSecret")
    sampleDB)

/-! ## Helper lemmas on decimal representations -/

theorem toDigitsCore_ne_nil (b f n : Nat) (c : Char) (tl : List Char) :
    Nat.toDigitsCore b f n (c :: tl) ≠ [] := by
  intro h
  have := Nat.toDigitsCore_lens_eq b f n c tl
  rw [h] at this
  simp at this

theorem repr_length_pos (n : Nat) : 1 ≤ (Nat.repr n).length := by
  have h : Nat.toDigits 10 n ≠ [] := by
    unfold Nat.toDigits
    rw [Nat.toDigitsCore]
    split
    · simp
    · exact toDigitsCore_ne_nil _ _ _ _ _
  simp only [Nat.repr, List.asString, String.length]
  exact List.length_pos.mpr h

theorem Itoa_natCast (n : Nat) : Itoa (n : Int) = Nat.repr n := by
  unfold Itoa
  have : ¬ ((n : Int) < 0) := by omega
  simp [this]

/-! ## Helper lemmas on the table -/

theorem filter_ne_of_absent (rows : List Account) (id : Int)
    (h : ∀ r ∈ rows, r.ID ≠ id) :
    rows.filter (fun r => !(r.ID == id)) = rows := by
  apply List.filter_eq_self.mpr
  intro r hr
  simp [h r hr]

theorem filter_eq_nil_of_absent (rows : List Account) (id : Int)
    (h : ∀ r ∈ rows, r.ID ≠ id) :
    rows.filter (fun r => r.ID == id) = [] := by
  apply List.filter_eq_nil_iff.mpr
  intro r hr
  simp [h r hr]

theorem find_after_delete_same (rows : List Account) (id : Int) :
    (rows.filter (fun r => !(r.ID == id))).find? (fun r => r.ID == id) = none := by
  apply List.find?_eq_none.mpr
  intro r hr
  have := (List.mem_filter.mp hr).2
  simpa using this

theorem find_after_delete_other (rows : List Account) (id j : Int) (hj : j ≠ id) :
    (rows.filter (fun r => !(r.ID == id))).find? (fun r => r.ID == j) =
      rows.find? (fun r => r.ID == j) := by
  induction rows with
  | nil => rfl
  | cons r rest ih =>
    by_cases hid : r.ID = id
    · have hrj : ¬ r.ID = j := fun h => hj (h ▸ hid)
      simp [List.filter_cons, List.find?_cons, hid, hrj, hj.symm] at ih ⊢
      exact ih
    · by_cases hrj : r.ID = j
      · simp [List.filter_cons, List.find?_cons, hid, hrj, hj]
      · simp [List.filter_cons, List.find?_cons, hid, hrj] at ih ⊢
        exact ih

theorem getAccount_ok_row (env : Driver) (id : Int) (db : DB)
    (h : (PostgresStore.GetAccount env id db).2 = none) :
    ∃ r, db.rows.find? (fun r => r.ID == id) = some r := by
  unfold PostgresStore.GetAccount queryRowScan at h
  cases hfind : db.rows.find? (fun r => r.ID == id) with
  | some r => exact ⟨r, rfl⟩
  | none =>
    exfalso
    rw [hfind] at h
    cases hx : env.execErr <;> cases hr : env.rowsErr <;> simp [hx, hr] at h

/-! ## Helper lemmas on the creation pipeline -/

theorem handleCreateAccount_some {σ : Type} (req : CreateAccountRequest) (sys : Sys σ)
    (r : HttpResponse × Sys σ) (h : handleCreateAccount (some req) sys = some r) :
    r.1 = acceptedResponse ∧
    ((sys.loop = Loop.receiving ∧ r.2 = { sys with loop := Loop.received req }) ∨
     (sys.loop ≠ Loop.receiving ∧ sys.server.accountChan.buf.length < sys.server.accountChan.cap ∧
      r.2 = { sys with
        server := { sys.server with
          accountChan := { sys.server.accountChan with
            buf := sys.server.accountChan.buf ++ [req] } } })) := by
  unfold handleCreateAccount Chan.send at h
  by_cases hl : sys.loop = Loop.receiving
  · simp [hl] at h
    subst h
    exact ⟨rfl, Or.inl ⟨hl, by simp [hl]⟩⟩
  · have hb : (sys.loop == Loop.receiving) = false := by simpa using hl
    by_cases hc : sys.server.accountChan.buf.length < sys.server.accountChan.cap
    · simp [hb, hc] at h
      subst h
      exact ⟨rfl, Or.inr ⟨hl, hc, rfl⟩⟩
    · simp [hb, hc] at h

theorem runTask_frame {σ : Type} (i n : Nat) (now : Time) (sys : Sys σ)
    (req : CreateAccountRequest) (ht : sys.tasks[i]? = some req) :
    ∃ fin : Sys σ, runTask i n now sys = some fin ∧
      fin.server.Store = sys.server.Store ∧
      fin.server.accountChan = sys.server.accountChan ∧
      fin.loop = sys.loop ∧
      fin.tasks = sys.tasks.eraseIdx i ∧
      fin.store =
        (sys.server.Store.CreateAccount (NewAccount req.FirstName req.LastName n now)
          sys.store).2 ∧
      fin.log = sys.log ++
        (match (sys.server.Store.CreateAccount (NewAccount req.FirstName req.LastName n now)
            sys.store).1 with
          | some err => [createErrorLine err]
          | none => []) := by
  unfold runTask
  simp only [ht]
  cases hc : sys.server.Store.CreateAccount (NewAccount req.FirstName req.LastName n now)
      sys.store with
  | mk err st' =>
    cases err with
    | none => exact ⟨_, rfl, rfl, rfl, rfl, rfl, rfl, by simp⟩
    | some e => exact ⟨_, rfl, rfl, rfl, rfl, rfl, rfl, rfl⟩

theorem runTask_task {σ : Type} (i n : Nat) (now : Time) (sys sys' : Sys σ)
    (h : runTask i n now sys = some sys') : ∃ req, sys.tasks[i]? = some req := by
  unfold runTask at h
  cases ht : sys.tasks[i]? with
  | none => simp [ht] at h
  | some req => exact ⟨req, rfl⟩

theorem rangeReceive_fields {σ : Type} (sys : Sys σ) :
    (rangeReceive sys).server.Store = sys.server.Store ∧
    (rangeReceive sys).store = sys.store ∧
    (rangeReceive sys).tasks = sys.tasks ∧
    (rangeReceive sys).log = sys.log := by
  unfold rangeReceive
  split <;> exact ⟨rfl, rfl, rfl, rfl⟩

theorem rangeReceive_unbuffered {σ : Type} (sys : Sys σ)
    (h : sys.server.accountChan = { cap := 0, buf := [] }) :
    (rangeReceive sys).server.accountChan = { cap := 0, buf := [] } ∧
    (rangeReceive sys).loop = Loop.receiving := by
  unfold rangeReceive
  simp [h]

theorem step_unbuffered {σ : Type} (e : Event) (sys sys' : Sys σ)
    (h : sys.server.accountChan = { cap := 0, buf := [] })
    (hstep : step e sys = some sys') :
    sys'.server.accountChan = { cap := 0, buf := [] } := by
  cases e with
  | submit body =>
    cases body with
    | none =>
      simp [step, handleCreateAccount] at hstep
      subst hstep
      exact h
    | some req =>
      simp only [step, Option.map_eq_some'] at hstep
      obtain ⟨r, hr, hr2⟩ := hstep
      obtain ⟨_, hcase⟩ := handleCreateAccount_some req sys r hr
      rcases hcase with ⟨_, h2⟩ | ⟨_, hlt, _⟩
      · rw [hr2] at h2
        subst h2
        exact h
      · simp [h] at hlt
  | dispatch =>
    simp only [step] at hstep
    unfold dispatch at hstep
    split at hstep
    case h_2 => simp at hstep
    case h_1 r hl =>
      simp only [Option.some.injEq] at hstep
      rw [← hstep]
      refine (rangeReceive_unbuffered _ ?_).1
      exact h
  | task i n now =>
    simp only [step] at hstep
    obtain ⟨req, ht⟩ := runTask_task i n now sys sys' hstep
    obtain ⟨fin, hfin, _, h2, _⟩ := runTask_frame i n now sys req ht
    rw [hstep] at hfin
    cases hfin
    rw [h2]
    exact h

theorem run_unbuffered {σ : Type} (events : List Event) :
    ∀ sys sys' : Sys σ, sys.server.accountChan = { cap := 0, buf := [] } →
      run events sys = some sys' →
      sys'.server.accountChan = { cap := 0, buf := [] } := by
  induction events with
  | nil =>
    intro sys sys' h hrun
    simp only [run, Option.some.injEq] at hrun
    exact hrun ▸ h
  | cons e es ih =>
    intro sys sys' h hrun
    simp only [run] at hrun
    cases hstep : step e sys with
    | none => simp [hstep] at hrun
    | some mid =>
      simp only [hstep] at hrun
      exact ih mid sys' (step_unbuffered e sys mid h hstep) hrun

theorem serve_one {σ : Type} (sys : Sys σ) (req : CreateAccountRequest) (n : Nat) (now : Time) :
    ∃ fin : Sys σ,
      run [Event.dispatch, Event.task sys.tasks.length n now]
        { sys with loop := Loop.received req } = some fin ∧
      fin.server.Store = sys.server.Store ∧
      fin.tasks = sys.tasks ∧
      fin.store =
        (sys.server.Store.CreateAccount (NewAccount req.FirstName req.LastName n now)
          sys.store).2 ∧
      fin.log = sys.log ++
        (match (sys.server.Store.CreateAccount (NewAccount req.FirstName req.LastName n now)
            sys.store).1 with
          | some err => [createErrorLine err]
          | none => []) ∧
      (sys.server.accountChan = { cap := 0, buf := [] } →
        fin.server.accountChan = { cap := 0, buf := [] } ∧ fin.loop = Loop.receiving) := by
  have hd : dispatch { sys with loop := Loop.received req } =
      some (rangeReceive
        { sys with
          loop := Loop.received req
          server := { sys.server with wg := sys.server.wg + 1 }
          tasks := sys.tasks ++ [req] }) := rfl
  obtain ⟨h1, h2, h3, h4⟩ := rangeReceive_fields
    { sys with
      loop := Loop.received req
      server := { sys.server with wg := sys.server.wg + 1 }
      tasks := sys.tasks ++ [req] }
  have hu := rangeReceive_unbuffered
    { sys with
      loop := Loop.received req
      server := { sys.server with wg := sys.server.wg + 1 }
      tasks := sys.tasks ++ [req] }
  have hidx : (sys.tasks ++ [req])[sys.tasks.length]? = some req := by simp
  have herase : (sys.tasks ++ [req]).eraseIdx sys.tasks.length = sys.tasks := by
    rw [List.eraseIdx_append_of_length_le (le_refl _)]
    simp
  obtain ⟨fin, hfin, f1, f2, f3, f4, f5, f6⟩ := runTask_frame sys.tasks.length n now
    (rangeReceive
      { sys with
        loop := Loop.received req
        server := { sys.server with wg := sys.server.wg + 1 }
        tasks := sys.tasks ++ [req] }) req (by rw [h3]; exact hidx)
  refine ⟨fin, ?_, ?_, ?_, ?_, ?_, ?_⟩
  · simp only [run, step, hd, hfin]
  · rw [f1, h1]
  · rw [f4, h3]; exact herase
  · rw [f5, h1, h2]
  · rw [f6, h1, h2, h4]
  · intro h
    rw [f2, f3]
    exact hu h

theorem handleCreateAccount_receiving {σ : Type} (sys : Sys σ) (req : CreateAccountRequest)
    (hl : sys.loop = Loop.receiving) :
    handleCreateAccount (some req) sys =
      some (acceptedResponse, { sys with loop := Loop.received req }) := by
  simp [handleCreateAccount, Chan.send, hl]

/-- C1: for all names, every draw of the random source and every clock value,
`NewAccount` returns an account carrying the two names, balance 0 and the
unset id 0. -/
theorem NewAccount_fields (firstName lastName : String) (n : Nat) (now : Time) :
    (NewAccount firstName lastName n now).FirstName = firstName ∧
    (NewAccount firstName lastName n now).LastName = lastName ∧
    (NewAccount firstName lastName n now).Balance = 0 ∧
    (NewAccount firstName lastName n now).ID = 0 :=
  ⟨rfl, rfl, rfl, rfl⟩

/-- C2: when the random source returns `n` with `n < 100000`, the number of the
new account is `"+91"` followed by the decimal representation of `n`; it is
not empty, its first three characters are `+91`, and it has between 4 and 8
characters. -/
theorem NewAccount_Number (firstName lastName : String) (n : Nat) (now : Time)
    (hn : n < 100000) :
    (NewAccount firstName lastName n now).Number = "+91" ++ Nat.repr n ∧
    (NewAccount firstName lastName n now).Number ≠ "" ∧
    (NewAccount firstName lastName n now).Number.data.take 3 = ['+', '9', '1'] ∧
    4 ≤ (NewAccount firstName lastName n now).Number.length ∧
    (NewAccount firstName lastName n now).Number.length ≤ 8 := by
  have hlo := repr_length_pos n
  have hhi : (Nat.repr n).length ≤ 5 := Nat.repr_length n 5 (by decide) (by omega)
  have hnum : (NewAccount firstName lastName n now).Number = "+91" ++ Nat.repr n := by
    simp [NewAccount, Itoa_natCast]
  have hlen : ("+91" ++ Nat.repr n).length = 3 + (Nat.repr n).length := by
    rw [String.length_append]; rfl
  refine ⟨hnum, ?_, ?_, ?_, ?_⟩
  · rw [hnum]
    intro h
    have := congrArg String.length h
    rw [hlen] at this
    simp at this
  · rw [hnum]
    simp [String.data_append]
  · rw [hnum, hlen]; omega
  · rw [hnum, hlen]; omega

/-- C2 at the draw 42. -/
theorem NewAccount_Number_witness :
    42 < 100000 ∧
    (NewAccount "Ada" "Lovelace" 42 ⟨7, Location.Local⟩).Number = "+91" ++ Nat.repr 42 ∧
    (NewAccount "Ada" "Lovelace" 42 ⟨7, Location.Local⟩).Number ≠ "" ∧
    (NewAccount "Ada" "Lovelace" 42 ⟨7, Location.Local⟩).Number.data.take 3 = ['+', '9', '1'] ∧
    4 ≤ (NewAccount "Ada" "Lovelace" 42 ⟨7, Location.Local⟩).Number.length ∧
    (NewAccount "Ada" "Lovelace" 42 ⟨7, Location.Local⟩).Number.length ≤ 8 :=
  ⟨by decide, NewAccount_Number "Ada" "Lovelace" 42 ⟨7, Location.Local⟩ (by decide)⟩

/-! ## Record store -/

/-- C3: when the delete statement itself succeeds and no row carries `id`,
`DeleteAccount(id)` returns the error "account with ID <id> not found" and the
table is the same after the call as before it. -/
theorem DeleteAccount_absent (env : Driver) (db : DB) (id : Int)
    (hexec : env.execErr = none) (hcount : env.rowsAffectedErr = none)
    (habsent : ∀ r ∈ db.rows, r.ID ≠ id) :
    PostgresStore.DeleteAccount env id db =
      (some (GoError.errorString ("account with ID " ++ Itoa id ++ " not found")), db) := by
  unfold PostgresStore.DeleteAccount
  simp [hexec, hcount, filter_ne_of_absent db.rows id habsent,
    filter_eq_nil_of_absent db.rows id habsent, errAccountNotFound]

/-- C3 at the id 7 on a table whose only row has id 0. -/
theorem DeleteAccount_absent_witness :
    Driver.healthy.execErr = none ∧ Driver.healthy.rowsAffectedErr = none ∧
    (∀ r ∈ (DB.mk [NewAccount "Ada" "Lovelace" 42 Time.zero] 2).rows, r.ID ≠ 7) ∧
    PostgresStore.DeleteAccount Driver.healthy 7
        (DB.mk [NewAccount "Ada" "Lovelace" 42 Time.zero] 2) =
      (some (GoError.errorString ("account with ID " ++ Itoa 7 ++ " not found")),
        DB.mk [NewAccount "Ada" "Lovelace" 42 Time.zero] 2) :=
  ⟨rfl, rfl, by simp [NewAccount],
    DeleteAccount_absent Driver.healthy _ 7 rfl rfl (by simp [NewAccount])⟩

/-- C4: if `GetAccount(id)` succeeds on a table, then (the driver failing
neither call) `DeleteAccount(id)` returns no error, a following
`GetAccount(id)` returns the error "account with ID <id> not found", and for
every other id `GetAccount` answers after the delete exactly what it answered
before it. -/
theorem DeleteAccount_after_GetAccount (env₀ env₁ env₂ : Driver) (db : DB) (id : Int)
    (hget : (PostgresStore.GetAccount env₀ id db).2 = none)
    (hexec₁ : env₁.execErr = none) (hcount₁ : env₁.rowsAffectedErr = none)
    (hexec₂ : env₂.execErr = none) (hrows₂ : env₂.rowsErr = none) :
    (PostgresStore.DeleteAccount env₁ id db).1 = none ∧
    PostgresStore.GetAccount env₂ id (PostgresStore.DeleteAccount env₁ id db).2 =
      (none, some (GoError.errorString ("account with ID " ++ Itoa id ++ " not found"))) ∧
    ∀ (env : Driver) (j : Int), j ≠ id →
      PostgresStore.GetAccount env j (PostgresStore.DeleteAccount env₁ id db).2 =
        PostgresStore.GetAccount env j db := by
  obtain ⟨r, hr⟩ := getAccount_ok_row env₀ id db hget
  have hmem : r ∈ db.rows.filter (fun r => r.ID == id) := by
    have h1 := List.mem_of_find?_eq_some hr
    have h2 := List.find?_some hr
    exact List.mem_filter.mpr ⟨h1, h2⟩
  have hpos : (db.rows.filter (fun r => r.ID == id)).length ≠ 0 := by
    intro h0
    rw [List.length_eq_zero] at h0
    rw [h0] at hmem
    simp at hmem
  have hdb : (PostgresStore.DeleteAccount env₁ id db) =
      (none, { db with rows := db.rows.filter (fun r => !(r.ID == id)) }) := by
    unfold PostgresStore.DeleteAccount
    simp only [hexec₁, hcount₁]
    rw [if_neg hpos]
  refine ⟨by rw [hdb], ?_, ?_⟩
  · rw [hdb]
    simp only [PostgresStore.GetAccount, queryRowScan, hexec₂, hrows₂]
    rw [find_after_delete_same]
    simp [errAccountNotFound]
  · intro env j hj
    rw [hdb]
    simp only [PostgresStore.GetAccount, queryRowScan]
    rw [find_after_delete_other db.rows id j hj]

/-- C4 at the id 1 on the sample table. -/
theorem DeleteAccount_after_GetAccount_witness :
    (PostgresStore.GetAccount Driver.healthy 1 sampleDB).2 = none ∧
    Driver.healthy.execErr = none ∧ Driver.healthy.rowsAffectedErr = none ∧
    Driver.healthy.rowsErr = none ∧
    ((PostgresStore.DeleteAccount Driver.healthy 1 sampleDB).1 = none ∧
     PostgresStore.GetAccount Driver.healthy 1
        (PostgresStore.DeleteAccount Driver.healthy 1 sampleDB).2 =
      (none, some (GoError.errorString ("account with ID " ++ Itoa 1 ++ " not found"))) ∧
     ∀ (env : Driver) (j : Int), j ≠ 1 →
      PostgresStore.GetAccount env j (PostgresStore.DeleteAccount Driver.healthy 1 sampleDB).2 =
        PostgresStore.GetAccount env j sampleDB) :=
  ⟨by simp [PostgresStore.GetAccount, queryRowScan, Driver.healthy, sampleDB], rfl, rfl, rfl,
    DeleteAccount_after_GetAccount Driver.healthy Driver.healthy Driver.healthy sampleDB 1
      (by simp [PostgresStore.GetAccount, queryRowScan, Driver.healthy, sampleDB])
      rfl rfl rfl rfl⟩

/-- C5: on a table without rows, the query not failing, `GetAccounts` returns
the empty non-nil slice with a nil error, and `handleGetAccounts` answers with
status 200 and that empty slice as data. -/
theorem GetAccounts_empty (env : Driver) (db : DB)
    (hrows : db.rows = []) (hexec : env.execErr = none) (herr : env.rowsErr = none) :
    PostgresStore.GetAccounts env db = (some [], none) ∧
    (handleGetAccounts (PostgresStore.asStorage env) db).1 =
      { statusCode := 200
        body := { Status := 200
                  Message := "Accounts retrieved successfully"
                  Data := Data.accounts (some []) } } := by
  have h : PostgresStore.GetAccounts env db = (some [], none) := by
    simp [PostgresStore.GetAccounts, hrows, hexec, herr, scanRows]
  refine ⟨h, ?_⟩
  simp [handleGetAccounts, PostgresStore.asStorage, h, sendJSONResponse, NewJSONResponse,
    StatusOK]

/-- C5 on the empty table with a healthy driver. -/
theorem GetAccounts_empty_witness :
    (DB.mk [] 1).rows = [] ∧ Driver.healthy.execErr = none ∧ Driver.healthy.rowsErr = none ∧
    PostgresStore.GetAccounts Driver.healthy (DB.mk [] 1) = (some [], none) :=
  ⟨rfl, rfl, rfl, (GetAccounts_empty Driver.healthy (DB.mk [] 1) rfl rfl rfl).1⟩

/-! ## Synchronous handlers -/

/-- C8, the store: `GetAccount` and `DeleteAccount` keep the two failures
apart. On the sample table a timed-out statement yields the driver's error for
id 1, a missing row yields "account with ID 7 not found" for id 7. The
handlers do not: both requests are answered with the same 404
"Account not found". -/
theorem handlers_report_timeout_as_not_found :
    PostgresStore.GetAccount (Driver.failing deadlineExceeded) 1 sampleDB =
      (none, some (GoError.driver deadlineExceeded)) ∧
    PostgresStore.GetAccount Driver.healthy 7 sampleDB =
      (none, some (GoError.errorString ("account with ID " ++ Itoa 7 ++ " not found"))) ∧
    (handleGetAccount (PostgresStore.asStorage (Driver.failing deadlineExceeded))
        (some { ID := 1 }) sampleDB).1 =
      { statusCode := 404
        body := { Status := 404, Message := "Account not found", Data := Data.null } } ∧
    (handleGetAccount (PostgresStore.asStorage Driver.healthy) (some { ID := 7 }) sampleDB).1 =
      { statusCode := 404
        body := { Status := 404, Message := "Account not found", Data := Data.null } } ∧
    (PostgresStore.DeleteAccount (Driver.failing deadlineExceeded) 1 sampleDB).1 =
      some (GoError.driver deadlineExceeded) ∧
    (PostgresStore.DeleteAccount Driver.healthy 7 sampleDB).1 =
      some (GoError.errorString ("account with ID " ++ Itoa 7 ++ " not found")) ∧
    (handleDeleteAccount (PostgresStore.asStorage (Driver.failing deadlineExceeded))
        (some { ID := 1 }) sampleDB).1 =
      (handleDeleteAccount (PostgresStore.asStorage Driver.healthy)
        (some { ID := 7 }) sampleDB).1 := by
  refine ⟨?_, ?_, ?_, ?_, ?_, ?_, ?_⟩ <;>
    simp [handleGetAccount, handleDeleteAccount, PostgresStore.asStorage,
      PostgresStore.GetAccount, PostgresStore.DeleteAccount, queryRowScan, Driver.healthy,
      Driver.failing, sampleDB, NewAccount, sendJSONResponse, NewJSONResponse, StatusNotFound,
      errAccountNotFound]

/-! ## Creation pipeline -/

/-- C6 as stated fails: the channel made by `NewApiServer` has capacity 0, and
once one request has been accepted and not yet dispatched, the send statement
of a second `handleCreateAccount` does not complete. -/
theorem second_submit_waits :
    (NewApiServer ":8080" (PostgresStore.asStorage Driver.healthy) "jwtSecret").accountChan.cap
      = 0 ∧
    ∃ sys : Sys DB, run [Event.submit (some ada)] sampleSys = some sys ∧
      inFlight sys = [ada] ∧
      (handleCreateAccount (some alan) sys).isNone = true := by
  refine ⟨rfl, { sampleSys with loop := Loop.received ada }, rfl, rfl, rfl⟩

/-- C6 amended: in every state the server reaches after `NewApiServer` and
`StartQueue`, the intake channel has capacity 0 and holds no request, and the
send statement of `handleCreateAccount` completes exactly when the dispatch
loop is waiting in its receive; the request then goes straight to the loop and
the handler answers 202. -/
theorem submit_completes_iff_loop_receiving {σ : Type} (listenAddr jwtSecret : String)
    (S : Storage σ) (st : σ) (events : List Event) (sys : Sys σ) (req : CreateAccountRequest)
    (hrun : run events (StartQueue (Sys.init (NewApiServer listenAddr S jwtSecret) st)) =
      some sys) :
    sys.server.accountChan = { cap := 0, buf := [] } ∧
    ((handleCreateAccount (some req) sys).isSome = true ↔ sys.loop = Loop.receiving) ∧
    (sys.loop = Loop.receiving →
      handleCreateAccount (some req) sys =
        some (acceptedResponse, { sys with loop := Loop.received req })) := by
  have hchan : sys.server.accountChan = { cap := 0, buf := [] } :=
    run_unbuffered events _ sys rfl hrun
  refine ⟨hchan, ⟨?_, ?_⟩, handleCreateAccount_receiving sys req⟩
  · intro h
    by_contra hl
    have hb : (sys.loop == Loop.receiving) = false := by simpa using hl
    simp [handleCreateAccount, Chan.send, hb, hchan] at h
  · intro hl
    rw [handleCreateAccount_receiving sys req hl]
    rfl

/-- C6 amended, in the state reached once one request has been accepted. -/
theorem submit_completes_iff_loop_receiving_witness :
    run [Event.submit (some ada)] sampleSys =
      some { sampleSys with loop := Loop.received ada } ∧
    ((handleCreateAccount (some alan) { sampleSys with loop := Loop.received ada }).isSome = true
      ↔ ({ sampleSys with loop := Loop.received ada } : Sys DB).loop = Loop.receiving) :=
  ⟨rfl, (submit_completes_iff_loop_receiving ":8080" "jwtSecret"
    (PostgresStore.asStorage Driver.healthy) sampleDB [Event.submit (some ada)]
    { sampleSys with loop := Loop.received ada } alan rfl).2.1⟩

/-- C9: whenever `handleCreateAccount` returns for a parsed request, its
response is the 202 "Account creation in progress"; with the dispatch loop
waiting in its receive it does return, and when the goroutine launched for the
request then runs, whatever `Store.CreateAccount` returns only decides whether
the line "Error creating account: ..." is appended to the log. -/
theorem handleCreateAccount_accepted_whatever_create_returns {σ : Type} (sys : Sys σ)
    (req : CreateAccountRequest) (n : Nat) (now : Time) :
    (∀ r : HttpResponse × Sys σ, handleCreateAccount (some req) sys = some r →
      r.1 = { statusCode := 202
              body := { Status := 202
                        Message := "Account creation in progress"
                        Data := Data.null } }) ∧
    (sys.loop = Loop.receiving →
      ∃ fin : Sys σ,
        handleCreateAccount (some req) sys =
          some ({ statusCode := 202
                  body := { Status := 202
                            Message := "Account creation in progress"
                            Data := Data.null } },
                { sys with loop := Loop.received req }) ∧
        run [Event.dispatch, Event.task sys.tasks.length n now]
          { sys with loop := Loop.received req } = some fin ∧
        fin.store =
          (sys.server.Store.CreateAccount (NewAccount req.FirstName req.LastName n now)
            sys.store).2 ∧
        fin.log = sys.log ++
          (match (sys.server.Store.CreateAccount (NewAccount req.FirstName req.LastName n now)
              sys.store).1 with
            | some err => ["Error creating account: " ++ err.Error]
            | none => [])) := by
  constructor
  · intro r hr
    exact (handleCreateAccount_some req sys r hr).1
  · intro hl
    obtain ⟨fin, hfin, _, _, h3, h4, _⟩ := serve_one sys req n now
    exact ⟨fin, handleCreateAccount_receiving sys req hl, hfin, h3, h4⟩

/-- C9 with a store whose every statement times out: the answer is 202 and
the failure shows in the log only. -/
theorem handleCreateAccount_accepted_witness :
    (booted (PostgresStore.asStorage (Driver.failing deadlineExceeded)) sampleDB).loop =
      Loop.receiving ∧
    ∃ fin : Sys (DB × List StoreCall),
      handleCreateAccount (some ada)
          (booted (PostgresStore.asStorage (Driver.failing deadlineExceeded)) sampleDB) =
        some ({ statusCode := 202
                body := { Status := 202
                          Message := "Account creation in progress"
                          Data := Data.null } },
              { booted (PostgresStore.asStorage (Driver.failing deadlineExceeded)) sampleDB with
                loop := Loop.received ada }) ∧
      run [Event.dispatch, Event.task 0 42 Time.zero]
          { booted (PostgresStore.asStorage (Driver.failing deadlineExceeded)) sampleDB with
            loop := Loop.received ada } = some fin ∧
      fin.log = ["Error creating account: context deadline exceeded"] := by
  refine ⟨rfl, ?_⟩
  obtain ⟨fin, h1, h2, _, h4⟩ :=
    (handleCreateAccount_accepted_whatever_create_returns
      (booted (PostgresStore.asStorage (Driver.failing deadlineExceeded)) sampleDB)
      ada 42 Time.zero).2 rfl
  refine ⟨fin, h1, h2, ?_⟩
  rw [h4]
  rfl

end GoBank
